import Mathlib

/-!
Verification of the backend service in `backend/main.py`: a single-endpoint
HTTP service wrapping a text-to-image pipeline.  The handlers `health` and
`generate`, the request model `ImageRequest`, and the response encoder
`pil_to_data_url_png` are shallowly embedded below.  The external pipeline
(the diffusion runtime) is a parameter of the state; the external PNG codec
and base64 transport are modelled explicitly.
-/

namespace SDApi

/-- An in-memory image produced by the pipeline (PIL image): dimensions and
raw pixel bytes. -/
structure PILImage where
  width : Nat
  height : Nat
  pixels : List Nat
  deriving DecidableEq, Repr

/-- A torch random generator, as constructed by
`torch.Generator(device=device).manual_seed(seed)` in `generate`. -/
structure TorchGenerator where
  device : String
  seed : Int
  deriving DecidableEq, Repr

/-- The keyword arguments passed to the pipeline call in `generate`
(main.py lines 106-114). -/
structure PipeArgs where
  prompt : String
  negative_prompt : String
  num_inference_steps : Int
  guidance_scale : Rat
  width : Int
  height : Int
  generator : Option TorchGenerator
  deriving DecidableEq, Repr

/-- Outcome of one synchronous pipeline invocation: an image, a CUDA
out-of-memory error, or any other exception carrying its message. -/
inductive PipeOutcome where
  | success (img : PILImage)
  | cudaOOM
  | failure (msg : String)
  deriving DecidableEq, Repr

/-- The external pipeline handle (`StableDiffusionPipeline`): a black-box
function of the call arguments and of an ambient entropy source (the
runtime's global randomness, consumed when no generator is supplied). -/
def Pipeline : Type := PipeArgs → Nat → PipeOutcome

/-- Modelled from the spec: the external runtime is fixed and deterministic
once an explicit seeded generator is supplied (spec section 8: determinism
"given a fixed device and runtime").  A pipeline with this property ignores
the ambient entropy whenever `generator` is set. -/
def SeededDeterministic (p : Pipeline) : Prop :=
  ∀ args e₁ e₂, args.generator.isSome = true → p args e₁ = p args e₂

/-- Process-wide state of main.py: the global `pipe` handle, the global
`device` label, and the configured `MODEL_ID`. -/
structure ServerState where
  pipe : Option Pipeline
  device : String
  modelId : String

/-- The request body model `ImageRequest` (main.py lines 34-41), with the
source's default values.  Python ints are unbounded, hence `Int`;
`guidance_scale` is an exact numeric passthrough, hence `Rat`. -/
structure ImageRequest where
  prompt : String
  negative_prompt : String := "blurry, low quality, distorted"
  num_inference_steps : Int := 25
  guidance_scale : Rat := 7.5
  width : Int := 512
  height : Int := 512
  seed : Option Int := none
  deriving DecidableEq, Repr

/-- Response body of `GET /health` (main.py line 88): exactly the four
fields `status`, `model`, `device`, `loaded`. -/
structure HealthResponse where
  status : String
  model : String
  device : String
  loaded : Bool
  deriving DecidableEq, Repr

/-- Success body of `POST /generate` (main.py lines 117-123): exactly the
five fields `image`, `prompt`, `seed`, `device`, `model`. -/
structure GenOk where
  image : String
  prompt : String
  seed : Option Int
  device : String
  model : String
  deriving DecidableEq, Repr

/-- A `POST /generate` response: the 200 body, or an `HTTPException` with a
status code and a detail string. -/
inductive GenResponse where
  | ok (body : GenOk)
  | httpError (status : Nat) (detail : String)
  deriving DecidableEq, Repr

/-- The `GET /health` handler (main.py lines 86-88): a pure read of the
process-wide state. -/
def health (st : ServerState) : HealthResponse :=
  { status := "ok", model := st.modelId, device := st.device,
    loaded := st.pipe.isSome }

/-! ### Base64 transport (`base64.b64encode`) -/

/-- The standard base64 alphabet, index to character (RFC 4648, the table
used by Python's `base64.b64encode`). -/
def b64Char (n : Nat) : Char :=
  if n < 26 then Char.ofNat (65 + n)
  else if n < 52 then Char.ofNat (71 + n)
  else if n < 62 then Char.ofNat (n - 4)
  else if n = 62 then '+'
  else '/'

/-- The standard base64 alphabet, character to index. -/
def b64Index (c : Char) : Option Nat :=
  let v := c.toNat
  if 65 ≤ v ∧ v ≤ 90 then some (v - 65)
  else if 97 ≤ v ∧ v ≤ 122 then some (v - 71)
  else if 48 ≤ v ∧ v ≤ 57 then some (v + 4)
  else if v = 43 then some 62
  else if v = 47 then some 63
  else none

/-- Base64 encoding of a byte sequence: three bytes become four alphabet
characters; a final chunk of one or two bytes is padded with the character
used for padding in RFC 4648. -/
def b64encodeChars : List Nat → List Char
  | [] => []
  | [b₁] =>
      [b64Char (b₁ / 4), b64Char (b₁ % 4 * 16), '=', '=']
  | [b₁, b₂] =>
      [b64Char (b₁ / 4), b64Char (b₁ % 4 * 16 + b₂ / 16),
       b64Char (b₂ % 16 * 4), '=']
  | b₁ :: b₂ :: b₃ :: rest =>
      b64Char (b₁ / 4) :: b64Char (b₁ % 4 * 16 + b₂ / 16) ::
      b64Char (b₂ % 16 * 4 + b₃ / 64) :: b64Char (b₃ % 64) ::
      b64encodeChars rest

/-- Base64 decoding, the inverse transport step used by the spec's
round-trip test: four characters become three bytes, with padding allowed
only in the final quadruple. -/
def b64decodeChars : List Char → Option (List Nat)
  | [] => some []
  | c₁ :: c₂ :: c₃ :: c₄ :: rest =>
      if c₃ = '=' then
        if c₄ = '=' ∧ rest = [] then
          (b64Index c₁).bind fun n₁ =>
            (b64Index c₂).map fun n₂ => [n₁ * 4 + n₂ / 16]
        else none
      else if c₄ = '=' then
        if rest = [] then
          (b64Index c₁).bind fun n₁ =>
            (b64Index c₂).bind fun n₂ =>
              (b64Index c₃).map fun n₃ =>
                [n₁ * 4 + n₂ / 16, n₂ % 16 * 16 + n₃ / 4]
        else none
      else
        (b64Index c₁).bind fun n₁ =>
          (b64Index c₂).bind fun n₂ =>
            (b64Index c₃).bind fun n₃ =>
              (b64Index c₄).bind fun n₄ =>
                (b64decodeChars rest).map fun tail =>
                  (n₁ * 4 + n₂ / 16) :: (n₂ % 16 * 16 + n₃ / 4) ::
                  (n₃ % 4 * 64 + n₄) :: tail
  | _ => none

/-! ### PNG codec model -/

/-- The eight-byte PNG file signature. -/
def pngMagic : List Nat := [137, 80, 78, 71, 13, 10, 26, 10]

/-- Big-endian four-byte encoding of a natural number. -/
def be32 (n : Nat) : List Nat :=
  [n / 16777216 % 256, n / 65536 % 256, n / 256 % 256, n % 256]

/-- Modelled from the spec: PIL's in-memory PNG encoder
(`img.save(buf, format="PNG")`), which is external to the repository.  The
spec requires only that it "encodes it losslessly as PNG in memory", so it
is modelled as a self-delimiting lossless byte encoding: the PNG signature,
the big-endian dimensions, then the raw pixel bytes. -/
def pngEncode (img : PILImage) : List Nat :=
  pngMagic ++ be32 img.width ++ be32 img.height ++ img.pixels

/-- Modelled from the spec: the PNG decoder used by the round-trip test,
the inverse of `pngEncode`. -/
def pngDecode : List Nat → Option PILImage
  | m₀ :: m₁ :: m₂ :: m₃ :: m₄ :: m₅ :: m₆ :: m₇ ::
      w₀ :: w₁ :: w₂ :: w₃ :: h₀ :: h₁ :: h₂ :: h₃ :: pixels =>
      if [m₀, m₁, m₂, m₃, m₄, m₅, m₆, m₇] = pngMagic then
        some { width := w₀ * 16777216 + w₁ * 65536 + w₂ * 256 + w₃,
               height := h₀ * 16777216 + h₁ * 65536 + h₂ * 256 + h₃,
               pixels := pixels }
      else none
  | _ => none

/-- An image whose fields are representable in the byte-level codec: pixel
values are bytes and the dimensions fit the four-byte PNG length fields. -/
def ValidImage (img : PILImage) : Prop :=
  img.width < 4294967296 ∧ img.height < 4294967296 ∧
    ∀ b ∈ img.pixels, b < 256

/-! ### Response encoder and generate handler -/

/-- The response encoder `pil_to_data_url_png` (main.py lines 43-47):
PNG-encode in memory, base64-encode, and wrap in a data URL. -/
def pil_to_data_url_png (img : PILImage) : String :=
  "data:image/png;base64," ++ String.mk (b64encodeChars (pngEncode img))

/-- Drops an expected leading character sequence, returning the remainder;
used to peel the `data:image/png;base64,` head off a data URL. -/
def dropHeader : List Char → List Char → Option (List Char)
  | [], s => some s
  | _ :: _, [] => none
  | p :: ps, c :: cs => if p = c then dropHeader ps cs else none

/-- The decoding procedure of the spec's round-trip test: strip the data-URL
head, base64-decode the payload, and PNG-decode the bytes. -/
def decodeDataUrl (s : String) : Option PILImage :=
  (dropHeader ("data:image/png;base64,".data) s.data).bind fun payload =>
    (b64decodeChars payload).bind pngDecode

/-- The detail string of the 400 dimension error (main.py line 97). -/
def dimErrorMsg : String := "width/height must be divisible by 8 (e.g., 512, 768)"

/-- The detail string of the 507 out-of-memory error (main.py line 125). -/
def oomErrorMsg : String := "CUDA OOM. Try smaller width/height (512) or fewer steps."

/-- The pipeline call arguments built in `generate` (main.py lines 100-113):
the request fields plus a generator derived from the optional seed via
`torch.Generator(device=device).manual_seed(req.seed)`. -/
def mkPipeArgs (st : ServerState) (req : ImageRequest) : PipeArgs :=
  { prompt := req.prompt, negative_prompt := req.negative_prompt,
    num_inference_steps := req.num_inference_steps,
    guidance_scale := req.guidance_scale,
    width := req.width, height := req.height,
    generator := req.seed.map fun s => { device := st.device, seed := s } }

/-- Mapping of a pipeline outcome to the HTTP response and the log lines
emitted by the try/except block of `generate` (main.py lines 99-128). -/
def dispatchOutcome (st : ServerState) (req : ImageRequest) :
    PipeOutcome → GenResponse × List String
  | .success img =>
      (.ok { image := pil_to_data_url_png img, prompt := req.prompt,
             seed := req.seed, device := st.device, model := st.modelId },
       ["Prompt: " ++ req.prompt])
  | .cudaOOM =>
      (.httpError 507 oomErrorMsg, ["Prompt: " ++ req.prompt])
  | .failure msg =>
      (.httpError 500 msg,
       ["Prompt: " ++ req.prompt, "Generate error: " ++ msg])

/-- The `POST /generate` handler (main.py lines 90-128), returning the HTTP
response together with the log lines it emits.  `entropy` is the ambient
randomness the external runtime consumes when no seed is given. -/
def generate (st : ServerState) (req : ImageRequest) (entropy : Nat) :
    GenResponse × List String :=
  match st.pipe with
  | none => (.httpError 500 "Model not loaded", [])
  | some p =>
      if req.width % 8 ≠ 0 ∨ req.height % 8 ≠ 0 then
        (.httpError 400 dimErrorMsg, [])
      else
        dispatchOutcome st req (p (mkPipeArgs st req) entropy)

/-! ### Helper lemmas -/

theorem b64Index_b64Char {n : Nat} (h : n < 64) : b64Index (b64Char n) = some n := by
  have key : ∀ m : Fin 64, b64Index (b64Char m.val) = some m.val := by decide
  exact key ⟨n, h⟩

theorem b64Char_ne_pad {n : Nat} (h : n < 64) : b64Char n ≠ '=' := by
  have key : ∀ m : Fin 64, b64Char m.val ≠ '=' := by decide
  exact key ⟨n, h⟩

theorem b64_decode_encode (l : List Nat) (hl : ∀ b ∈ l, b < 256) :
    b64decodeChars (b64encodeChars l) = some l := by
  induction l using b64encodeChars.induct with
  | case1 => rfl
  | case2 b₁ =>
      have h₁ : b₁ < 256 := hl b₁ (by simp)
      have i₁ := b64Index_b64Char (n := b₁ / 4) (by omega)
      have i₂ := b64Index_b64Char (n := b₁ % 4 * 16) (by omega)
      simp [b64encodeChars, b64decodeChars, i₁, i₂]
      omega
  | case3 b₁ b₂ =>
      have h₁ : b₁ < 256 := hl b₁ (by simp)
      have h₂ : b₂ < 256 := hl b₂ (by simp)
      have i₁ := b64Index_b64Char (n := b₁ / 4) (by omega)
      have i₂ := b64Index_b64Char (n := b₁ % 4 * 16 + b₂ / 16) (by omega)
      have i₃ := b64Index_b64Char (n := b₂ % 16 * 4) (by omega)
      have ne₃ := b64Char_ne_pad (n := b₂ % 16 * 4) (by omega)
      simp [b64encodeChars, b64decodeChars, i₁, i₂, i₃, ne₃]
      omega
  | case4 b₁ b₂ b₃ rest ih =>
      have h₁ : b₁ < 256 := hl b₁ (by simp)
      have h₂ : b₂ < 256 := hl b₂ (by simp)
      have h₃ : b₃ < 256 := hl b₃ (by simp)
      have i₁ := b64Index_b64Char (n := b₁ / 4) (by omega)
      have i₂ := b64Index_b64Char (n := b₁ % 4 * 16 + b₂ / 16) (by omega)
      have i₃ := b64Index_b64Char (n := b₂ % 16 * 4 + b₃ / 64) (by omega)
      have i₄ := b64Index_b64Char (n := b₃ % 64) (by omega)
      have ne₃ := b64Char_ne_pad (n := b₂ % 16 * 4 + b₃ / 64) (by omega)
      have ne₄ := b64Char_ne_pad (n := b₃ % 64) (by omega)
      have ih' := ih fun b hb => hl b (by simp [hb])
      simp [b64encodeChars, b64decodeChars, i₁, i₂, i₃, i₄, ne₃, ne₄, ih']
      omega

theorem dropHeader_append (p s : List Char) : dropHeader p (p ++ s) = some s := by
  induction p with
  | nil => rfl
  | cons c cs ih => simp [dropHeader, ih]

theorem pngEncode_bytes (img : PILImage) (h : ValidImage img) :
    ∀ b ∈ pngEncode img, b < 256 := by
  obtain ⟨hw, hh, hp⟩ := h
  intro b hb
  simp [pngEncode, pngMagic, be32] at hb
  rcases hb with hb | hb | hb | hb | hb | hb | hb | hb | hb | hb | hb | hb |
    hb | hb | hb | hb | hb
  all_goals first
    | omega
    | exact hp b hb

theorem pngDecode_pngEncode (img : PILImage) (h : ValidImage img) :
    pngDecode (pngEncode img) = some img := by
  obtain ⟨w, hgt, px⟩ := img
  obtain ⟨hw, hh, _⟩ := h
  have hw' : w < 4294967296 := hw
  have hh' : hgt < 4294967296 := hh
  simp only [pngEncode, pngMagic, be32, List.cons_append, List.nil_append,
    pngDecode, if_true, Option.some.injEq, PILImage.mk.injEq]
  exact ⟨by omega, by omega, trivial⟩

theorem decodeDataUrl_encode (img : PILImage) (h : ValidImage img) :
    decodeDataUrl (pil_to_data_url_png img) = some img := by
  unfold decodeDataUrl pil_to_data_url_png
  rw [String.data_append]
  have hmk : (String.mk (b64encodeChars (pngEncode img))).data =
      b64encodeChars (pngEncode img) := rfl
  rw [hmk, dropHeader_append]
  simp [b64_decode_encode _ (pngEncode_bytes img h), pngDecode_pngEncode img h]

/-! ### Test fixtures for witnesses -/

/-- A pipeline that always returns the same outcome, and in particular
ignores the ambient entropy. -/
def constPipe (out : PipeOutcome) : Pipeline := fun _ _ => out

/-- A one-pixel test image. -/
def testImg : PILImage := { width := 1, height := 1, pixels := [255] }

/-- A request with an off-by-one width, violating the dimension constraint. -/
def req513 : ImageRequest := { prompt := "x", width := 513 }

/-- A request keeping every default. -/
def req512 : ImageRequest := { prompt := "x" }

/-- A seeded request. -/
def req42 : ImageRequest := { prompt := "a red circle", seed := some 42 }

/-! ### The claims -/

/-- Claim C1: with the model loaded, a request whose width or height is not
divisible by 8 yields the 400 dimension error with no pipeline inference
(the response is the same for every pipeline), and this is the only
field-level validation: when width and height are both divisible by 8 the
response is exactly the dispatch of the pipeline's outcome, whatever the
other field values are. -/
theorem claim_C1 (dev mid : String) (p : Pipeline) (req : ImageRequest) (e : Nat) :
    ((req.width % 8 ≠ 0 ∨ req.height % 8 ≠ 0) →
        (generate ⟨some p, dev, mid⟩ req e).1 = .httpError 400 dimErrorMsg ∧
        ∀ q : Pipeline, generate ⟨some q, dev, mid⟩ req e =
          generate ⟨some p, dev, mid⟩ req e) ∧
    (req.width % 8 = 0 → req.height % 8 = 0 →
        generate ⟨some p, dev, mid⟩ req e =
          dispatchOutcome ⟨some p, dev, mid⟩ req
            (p (mkPipeArgs ⟨some p, dev, mid⟩ req) e)) := by
  constructor
  · intro hbad
    have h400 : ∀ q : Pipeline,
        generate ⟨some q, dev, mid⟩ req e = (.httpError 400 dimErrorMsg, []) := by
      intro q
      simp only [generate]
      rw [if_pos hbad]
    exact ⟨by rw [h400], fun q => by rw [h400, h400]⟩
  · intro h₁ h₂
    have hgood : ¬(req.width % 8 ≠ 0 ∨ req.height % 8 ≠ 0) := by
      push_neg
      exact ⟨h₁, h₂⟩
    simp only [generate]
    rw [if_neg hgood]

/-- Claim C1 witness: width 513 is rejected with the 400 dimension error;
the all-defaults request goes to the pipeline. -/
theorem claim_C1_witness :
    (generate ⟨some (constPipe (.success testImg)), "cpu", "m"⟩ req513 0).1 =
      .httpError 400 dimErrorMsg ∧
    generate ⟨some (constPipe (.success testImg)), "cpu", "m"⟩ req512 0 =
      dispatchOutcome ⟨some (constPipe (.success testImg)), "cpu", "m"⟩ req512
        (constPipe (.success testImg)
          (mkPipeArgs ⟨some (constPipe (.success testImg)), "cpu", "m"⟩ req512) 0) :=
  ⟨((claim_C1 "cpu" "m" (constPipe (.success testImg)) req513 0).1
      (by decide)).1,
   (claim_C1 "cpu" "m" (constPipe (.success testImg)) req512 0).2
      (by decide) (by decide)⟩

/-- Claim C2: with the model handle absent, every request gets the 500
"Model not loaded" response, no log line is emitted, and no pipeline is
invoked (the response does not depend on the request or on the entropy). -/
theorem claim_C2 (dev mid : String) (req : ImageRequest) (e : Nat) :
    generate ⟨none, dev, mid⟩ req e = (.httpError 500 "Model not loaded", []) :=
  rfl

/-- Claim C3: the model-not-loaded check precedes dimension validation: a
request with bad dimensions against an absent model gets the 500
"Model not loaded" error, not the 400 dimension error. -/
theorem claim_C3 (dev mid : String) (req : ImageRequest) (e : Nat)
    (hbad : req.width % 8 ≠ 0 ∨ req.height % 8 ≠ 0) :
    (generate ⟨none, dev, mid⟩ req e).1 = .httpError 500 "Model not loaded" ∧
    (generate ⟨none, dev, mid⟩ req e).1 ≠ .httpError 400 dimErrorMsg := by
  refine ⟨rfl, ?_⟩
  simp [generate, dimErrorMsg]

/-- Claim C3 witness: width 513 with no model loaded yields the 500 error. -/
theorem claim_C3_witness :
    (generate ⟨none, "cpu", "m"⟩ req513 0).1 = .httpError 500 "Model not loaded" ∧
    (generate ⟨none, "cpu", "m"⟩ req513 0).1 ≠ .httpError 400 dimErrorMsg :=
  claim_C3 "cpu" "m" req513 0 (by decide)

/-- Claim C4: with a loaded pipeline that is deterministic once seeded (the
fixed device and runtime of the spec), two requests with the same seed and
identical prompt, negative prompt, step count, guidance scale, width and
height receive equal responses, whatever ambient entropy each run consumes;
in particular the output images are byte-identical. -/
theorem claim_C4 (dev mid : String) (p : Pipeline) (hdet : SeededDeterministic p)
    (req₁ req₂ : ImageRequest) (s : Int) (e₁ e₂ : Nat)
    (hs₁ : req₁.seed = some s) (hs₂ : req₂.seed = some s)
    (hpr : req₁.prompt = req₂.prompt)
    (hneg : req₁.negative_prompt = req₂.negative_prompt)
    (hsteps : req₁.num_inference_steps = req₂.num_inference_steps)
    (hg : req₁.guidance_scale = req₂.guidance_scale)
    (hw : req₁.width = req₂.width) (hh : req₁.height = req₂.height) :
    generate ⟨some p, dev, mid⟩ req₁ e₁ = generate ⟨some p, dev, mid⟩ req₂ e₂ := by
  have hreq : req₁ = req₂ := by
    cases req₁
    cases req₂
    simp_all
  subst hreq
  by_cases hbad : req₁.width % 8 ≠ 0 ∨ req₁.height % 8 ≠ 0
  · simp only [generate]
    rw [if_pos hbad, if_pos hbad]
  · have harg : (mkPipeArgs ⟨some p, dev, mid⟩ req₁).generator.isSome = true := by
      simp [mkPipeArgs, hs₁]
    have hsame := hdet (mkPipeArgs ⟨some p, dev, mid⟩ req₁) e₁ e₂ harg
    simp only [generate]
    rw [if_neg hbad, if_neg hbad, hsame]

/-- Claim C4 witness: a constant pipeline is seeded-deterministic, and the
seeded request gets the same response under two different entropies. -/
theorem claim_C4_witness :
    generate ⟨some (constPipe (.success testImg)), "cpu", "m"⟩ req42 0 =
      generate ⟨some (constPipe (.success testImg)), "cpu", "m"⟩ req42 1 :=
  claim_C4 "cpu" "m" (constPipe (.success testImg))
    (fun _ _ _ _ => rfl) req42 req42 42 0 1
    rfl rfl rfl rfl rfl rfl rfl rfl

/-- Claim C5: the health endpoint always returns exactly
`{status := "ok", model, device, loaded}` with `loaded` true precisely when
the model handle is populated; it is a pure total read of the state. -/
theorem claim_C5 (st : ServerState) :
    health st = ⟨"ok", st.modelId, st.device, st.pipe.isSome⟩ ∧
    ((health st).loaded = true ↔ ∃ p, st.pipe = some p) := by
  refine ⟨rfl, ?_⟩
  simp [health, Option.isSome_iff_exists]

/-- Claim C6: the response encoder produces a `data:image/png;base64,`
data URL whose payload decodes back to the original image exactly: the
spec's decoding procedure is a left inverse of the encoder. -/
theorem claim_C6 (img : PILImage) (h : ValidImage img) :
    (∃ payload, pil_to_data_url_png img = "data:image/png;base64," ++ payload) ∧
    decodeDataUrl (pil_to_data_url_png img) = some img :=
  ⟨⟨String.mk (b64encodeChars (pngEncode img)), rfl⟩,
   decodeDataUrl_encode img h⟩

/-- Claim C6 witness: the round trip on a concrete one-pixel image. -/
theorem claim_C6_witness :
    decodeDataUrl (pil_to_data_url_png testImg) = some testImg :=
  (claim_C6 testImg ⟨by decide, by decide, by decide⟩).2

/-- Claim C7: a 507 response arises exactly when the loaded pipeline raises
a CUDA out-of-memory error on dimension-valid arguments, and its detail is
exactly the guidance message about reducing size or steps. -/
theorem claim_C7 (st : ServerState) (req : ImageRequest) (e : Nat) (d : String) :
    (generate st req e).1 = .httpError 507 d ↔
      d = oomErrorMsg ∧ ∃ p, st.pipe = some p ∧ req.width % 8 = 0 ∧
        req.height % 8 = 0 ∧ p (mkPipeArgs st req) e = .cudaOOM := by
  obtain ⟨pi, dev, mid⟩ := st
  cases pi with
  | none => simp [generate]
  | some p =>
      by_cases hbad : req.width % 8 ≠ 0 ∨ req.height % 8 ≠ 0
      · have h400 : (generate ⟨some p, dev, mid⟩ req e).1 =
            .httpError 400 dimErrorMsg := by
          simp only [generate]
          rw [if_pos hbad]
        rw [h400]
        constructor
        · intro hcontra
          injection hcontra with h₁ h₂
          exact absurd h₁ (by decide)
        · rintro ⟨-, p', hp', hw8, hh8, -⟩
          rcases hbad with hb | hb
          · exact (hb hw8).elim
          · exact (hb hh8).elim
      · have hnot := hbad
        push_neg at hnot
        have hred : generate ⟨some p, dev, mid⟩ req e =
            dispatchOutcome ⟨some p, dev, mid⟩ req
              (p (mkPipeArgs ⟨some p, dev, mid⟩ req) e) := by
          simp only [generate]
          rw [if_neg hbad]
        rw [hred]
        cases hout : p (mkPipeArgs ⟨some p, dev, mid⟩ req) e with
        | success img =>
            simp [dispatchOutcome, hout, hnot.1, hnot.2]
        | cudaOOM =>
            simp [dispatchOutcome, hout, hnot.1, hnot.2, eq_comm]
        | failure msg =>
            simp [dispatchOutcome, hout, hnot.1, hnot.2]

/-- Claim C8: any pipeline failure other than out-of-memory is surfaced as
a 500 response whose detail is the raw error message, and the error is
logged with its message. -/
theorem claim_C8 (dev mid : String) (p : Pipeline) (req : ImageRequest) (e : Nat)
    (msg : String)
    (hgood₁ : req.width % 8 = 0) (hgood₂ : req.height % 8 = 0)
    (hout : p (mkPipeArgs ⟨some p, dev, mid⟩ req) e = .failure msg) :
    (generate ⟨some p, dev, mid⟩ req e).1 = .httpError 500 msg ∧
    ("Generate error: " ++ msg) ∈ (generate ⟨some p, dev, mid⟩ req e).2 := by
  simp [generate, hgood₁, hgood₂, hout, dispatchOutcome]

/-- Claim C8 witness: a pipeline failing with message "boom" yields a 500
response with detail "boom" and the corresponding log line. -/
theorem claim_C8_witness :
    (generate ⟨some (constPipe (.failure "boom")), "cpu", "m"⟩ req512 0).1 =
      .httpError 500 "boom" ∧
    ("Generate error: " ++ "boom") ∈
      (generate ⟨some (constPipe (.failure "boom")), "cpu", "m"⟩ req512 0).2 :=
  claim_C8 "cpu" "m" (constPipe (.failure "boom")) req512 0 "boom"
    (by decide) (by decide) rfl

/-- Claim C9: a successful inference returns the 200 body with exactly the
five fields: the data URL of the image, the echoed prompt and seed, the
device label and the model identifier; the image string extends the data
URL head and is non-empty. -/
theorem claim_C9 (dev mid : String) (p : Pipeline) (req : ImageRequest) (e : Nat)
    (img : PILImage)
    (hgood₁ : req.width % 8 = 0) (hgood₂ : req.height % 8 = 0)
    (hout : p (mkPipeArgs ⟨some p, dev, mid⟩ req) e = .success img) :
    (generate ⟨some p, dev, mid⟩ req e).1 =
      .ok { image := pil_to_data_url_png img, prompt := req.prompt,
            seed := req.seed, device := dev, model := mid } ∧
    (∃ payload, pil_to_data_url_png img = "data:image/png;base64," ++ payload) ∧
    pil_to_data_url_png img ≠ "" := by
  refine ⟨by simp [generate, hgood₁, hgood₂, hout, dispatchOutcome],
    ⟨String.mk (b64encodeChars (pngEncode img)), rfl⟩, ?_⟩
  intro hempty
  have hdata : (pil_to_data_url_png img).data = [] := by
    rw [hempty]
  rw [pil_to_data_url_png, String.data_append, List.append_eq_nil] at hdata
  exact absurd hdata.1 (by decide)

/-- Claim C9 witness: the constant success pipeline on the all-defaults
request returns the 200 body echoing prompt, absent seed, device and
model. -/
theorem claim_C9_witness :
    (generate ⟨some (constPipe (.success testImg)), "cpu", "m"⟩ req512 0).1 =
      .ok { image := pil_to_data_url_png testImg, prompt := req512.prompt,
            seed := req512.seed, device := "cpu", model := "m" } ∧
    (∃ payload, pil_to_data_url_png testImg = "data:image/png;base64," ++ payload) ∧
    pil_to_data_url_png testImg ≠ "" :=
  claim_C9 "cpu" "m" (constPipe (.success testImg)) req512 0 testImg
    (by decide) (by decide) rfl

/-- Claim C10: the request model's optional fields default to exactly the
values of the source: negative prompt "blurry, low quality, distorted",
25 steps, guidance 7.5, 512 by 512, and no seed; prompt is the one field
with no default. -/
theorem claim_C10 (p : String) :
    ({ prompt := p } : ImageRequest) =
      { prompt := p, negative_prompt := "blurry, low quality, distorted",
        num_inference_steps := 25, guidance_scale := 7.5,
        width := 512, height := 512, seed := none } :=
  rfl

end SDApi
